import Mathlib

set_option maxRecDepth 8000

/-!
Verification of the seeFactory generation pipeline.

Shallow embedding of:
* `src/unnamed/part_000` (the OpenRouter ai service): `generateMovieScript`
  (scene-count policy, response handling) and `generateSceneImage`
  (image-reference extraction from heterogeneous responses),
* `src/services/geminiService.ts`: the fenced-code-block stripping applied
  to the script response before `JSON.parse`,
* `src/unnamed/part_002` (the `NewProject` component): the `handleGenerate`
  orchestrator, modelled as an explicit state-passing function whose two
  network calls are replaced by result oracles,
* `src/utils/db.ts`: the keyed project store (`saveProject`, `getProjects`).

JavaScript strings are modelled as Lean `String`s, with the handful of
JS-specific operations (trim, truthiness, `startsWith`, regex probing)
re-implemented below over `List Char`.  Numbers are modelled as `ℚ`
(durations), `ℤ` (rounding results) and `ℕ` (progress percentages, where
`Math.floor` of a non-negative quotient is `Nat` division).
-/

namespace SeeFactory

/-! ## JavaScript string primitives -/

/-- Whitespace characters stripped by JavaScript `String.prototype.trim`
(the ASCII subset that can actually occur in the modelled strings). -/
def isJsSpace (c : Char) : Bool :=
  c == ' ' || c == '\t' || c == '\n' || c == '\r' || c == '\x0b' || c == '\x0c'

/-- Strip `isJsSpace` characters from both ends of a character list. -/
def trimChars (cs : List Char) : List Char :=
  ((cs.dropWhile isJsSpace).reverse.dropWhile isJsSpace).reverse

/-- Model of JavaScript `s.trim()`. -/
def jsTrim (s : String) : String :=
  String.mk (trimChars s.data)

/-- Does `pat` occur at the head of `cs`?  (List-level `startsWith`.) -/
def charsStart : List Char → List Char → Bool
  | [], _ => true
  | _ :: _, [] => false
  | p :: ps, c :: cs => p == c && charsStart ps cs

/-- Model of JavaScript `s.startsWith(pat)`. -/
def strStartsWith (s pat : String) : Bool :=
  charsStart pat.data s.data

/-- Model of JavaScript `s.endsWith(pat)`. -/
def strEndsWith (s pat : String) : Bool :=
  charsStart pat.data.reverse s.data.reverse

/-- Drop the first `n` characters of a string (JS `slice(n)`). -/
def strDrop (s : String) (n : Nat) : String :=
  String.mk (s.data.drop n)

/-- Drop the last `n` characters of a string (JS `slice(0, -n)`). -/
def strDropEnd (s : String) (n : Nat) : String :=
  String.mk ((s.data.reverse.drop n).reverse)

/-- JavaScript truthiness for an optional string: `undefined`/`null` and the
empty string are falsy, everything else is truthy. -/
def truthy : Option String → Option String
  | none => none
  | some s => if s = "" then none else some s

/-! ## Data model (`src/types.ts`, second variant, and `src/unnamed/part_000`) -/

/-- Status values of `Project.status` in `src/types.ts`. -/
inductive ProjectStatus
  | draft | generating_script | generating_images | completed | error
deriving DecidableEq, Repr

/-- Modes of `ProjectMode` in `src/types.ts` (second variant). -/
inductive ProjectMode
  | storyboard | video_continuation | freeform
deriving DecidableEq, Repr

/-- The string a `ProjectMode` interpolates to in template literals. -/
def modeLabel : ProjectMode → String
  | .storyboard => "storyboard"
  | .video_continuation => "video_continuation"
  | .freeform => "freeform"

/-- Model of `SceneFrame` in `src/types.ts`; `imageUrl` is the optional image
reference populated during Step 3. -/
structure SceneData where
  id : String := ""
  timeStart : String := ""
  timeEnd : String := ""
  description : String := ""
  cameraMovement : String := ""
  visualPrompt : String := ""
  imageUrl : Option String := none
deriving DecidableEq, Repr

/-- Model of `MovieScript` as it comes back from `JSON.parse`: the `scenes` field may
be missing from the payload (`none`); an absent/empty `title` or
`visualContext` is modelled by `""` (both are used only via JS truthiness). -/
structure MovieScriptData where
  title : String := ""
  logline : String := ""
  visualContext : String := ""
  characters : List String := []
  scenes : Option (List SceneData) := none
deriving DecidableEq, Repr

/-- Model of `VideoLength` in `src/types.ts` (second variant): the 14-second
bucket, the fixed minute buckets, or the custom bucket. -/
inductive VideoLength
  | fourteenSec
  | minutes (n : Nat)
  | custom
deriving DecidableEq, Repr

/-- Model of `parseDuration` in `src/unnamed/part_002` (second `NewProject`
variant): the custom bucket uses `parseInt(customLength) || 1` (modelled
input: `none` for NaN, `some n` for a parsed integer, with `0` falsy), the
14-second bucket is `0.25` minutes, and a minute bucket parses to its
minute count. -/
def parseDuration (length : VideoLength) (customLength : Option Nat) : ℚ :=
  match length with
  | .custom =>
      match customLength with
      | none => 1
      | some 0 => 1
      | some n => n
  | .fourteenSec => 1/4
  | .minutes n => n

/-- Model of `Project.params` in `src/types.ts` (second variant). -/
structure ProjectParams where
  type : String := ""
  style : String := ""
  customStyle : String := ""
  length : VideoLength := .fourteenSec
  customLength : ℚ := 1
  content : String := ""
  videoUrl : Option String := none
  lastFrameUrl : Option String := none
deriving DecidableEq, Repr

/-- Model of `Project` in `src/types.ts` (second variant). -/
structure Project where
  id : String
  title : String
  createdAt : Nat
  mode : ProjectMode
  params : ProjectParams
  script : Option MovieScriptData
  status : ProjectStatus
  progress : Nat
deriving DecidableEq, Repr

/-! ## Script requestor (`src/unnamed/part_000`, `generateMovieScript`) -/

/-- JavaScript `Math.round` for the non-negative rationals that occur here:
round half away from zero, i.e. `⌊q + 1/2⌋`. -/
def jsRound (q : ℚ) : ℤ := ⌊q + 1/2⌋

/-- Scene-count computation of `generateMovieScript` in
`src/unnamed/part_000`:
`isShortForm ? 1 : Math.max(1, Math.round(durationMinutes * 4))` where
`isShortForm = durationMinutes < 1`. -/
def totalScenes (durationMinutes : ℚ) : ℤ :=
  if durationMinutes < 1 then 1 else max 1 (jsRound (durationMinutes * 4))

/-- Response handling of `generateMovieScript` in `src/unnamed/part_000`
after the `fetch`: a non-ok response throws an `OpenRouter API Error`; a
missing/empty message content throws `No script generated.`; otherwise the
function returns `JSON.parse(text)` unchanged.  `parseResult` is the oracle
for `JSON.parse(text)`: `.error m` when the parse throws, `.ok v` when it
yields `v` (with `v = none` for a JSON `null`).  No field of the parsed
object is validated here. -/
def generateMovieScriptResult (apiKey : String) (responseOk : Bool)
    (status : Nat) (errText : String) (content : Option String)
    (parseResult : Except String (Option MovieScriptData)) :
    Except String (Option MovieScriptData) :=
  if apiKey = "" then .error "API Key is missing."
  else if !responseOk then
    .error ("OpenRouter API Error: " ++ toString status ++ " - " ++ errText)
  else
    match truthy content with
    | none => .error "No script generated."
    | some _ => parseResult

/-! ## Image requestor (`src/unnamed/part_000`, `generateSceneImage`) -/

/-- One element of `choices[0].message.images` in the provider response:
`image_url` models the nested `img.image_url?.url` access, `url` the direct
field, `b64_json` the inline base64 payload. -/
structure ImageEntry where
  image_url : Option String := none
  url : Option String := none
  b64_json : Option String := none
deriving DecidableEq, Repr

/-- Message field of a `choices` entry of a chat-completion response. -/
structure ChatMessage where
  content : Option String := none
  images : Option (List ImageEntry) := none
deriving DecidableEq, Repr

/-- One element of `choices`. -/
structure Choice where
  message : ChatMessage
deriving DecidableEq, Repr

/-- The chat-completion response body. -/
structure ChatCompletionResponse where
  choices : List Choice := []
deriving DecidableEq, Repr

/-- The three field probes applied to `images[0]`, in source order:
`if (img.image_url?.url) … if (img.url) … if (img.b64_json) …` — each an
ordinary JS truthiness test, the base64 payload being wrapped as a
`data:image/png;base64,` URI. -/
def imageFromEntry (img : ImageEntry) : Option String :=
  match truthy img.image_url with
  | some u => some u
  | none =>
    match truthy img.url with
    | some u => some u
    | none =>
      match truthy img.b64_json with
      | some b => some ("data:image/png;base64," ++ b)
      | none => none

/-- The `(.*?)\)` tail of the markdown-image regex: lazily capture
characters up to the first `)`, failing on a newline (`.` does not match
`\n`) or end of input. -/
def findCloseParen : List Char → Option (List Char)
  | [] => none
  | c :: rest =>
    if c = ')' then some []
    else if c = '\n' then none
    else (findCloseParen rest).map (fun cap => c :: cap)

/-- Matching of `.*?\]\((.*?)\)` after an initial `![`: the lazy `.*?`
extends (never across a newline) until a `](` whose capture succeeds.  When
the capture after a `](` fails, the engine resumes scanning at the `(`; as
`(` can neither open a `](` nor is a newline, resuming at `(` equals
resuming just past it, which keeps the recursion structural. -/
def afterBang : List Char → Option (List Char)
  | ']' :: '(' :: rest =>
    (match findCloseParen rest with
     | some cap => some cap
     | none => afterBang rest)
  | '\n' :: _ => none
  | _ :: rest => afterBang rest
  | [] => none

/-- Leftmost match of the JS regex `/!\[.*?\]\((.*?)\)/` over the content:
scan for `![`, attempt the tail, and on failure resume one character later
(resuming at the `[` equals resuming past it, since `[` cannot start a
`![`).  Returns capture group 1. -/
def scanMarkdown : List Char → Option (List Char)
  | '!' :: '[' :: rest =>
    (match afterBang rest with
     | some cap => some cap
     | none => scanMarkdown rest)
  | _ :: rest => scanMarkdown rest
  | [] => none

/-- Capture group 1 of `content.match(...)` against the markdown-image
regex, as a string. -/
def markdownImageMatch (s : String) : Option String :=
  (scanMarkdown s.data).map String.mk

/-- The two bare-content fallbacks of `generateSceneImage`: trimmed content
returned verbatim when it starts with `http`, else when it starts with
`data:`. -/
def bareContentImage (ctext : String) : Option String :=
  if strStartsWith (jsTrim ctext) "http" then some (jsTrim ctext)
  else if strStartsWith (jsTrim ctext) "data:" then some (jsTrim ctext)
  else none

/-- Content probing of `generateSceneImage`: the markdown image pattern
first (its capture must be truthy), then the bare-URL / bare-data-URI
fallbacks. -/
def contentImage (ctext : String) : Option String :=
  match markdownImageMatch ctext with
  | some cap => if cap = "" then bareContentImage ctext else some cap
  | none => bareContentImage ctext

/-- Strategy 1 of `generateSceneImage`: a non-empty structured
`choices[0].message.images` array, probed via `imageFromEntry`. -/
def fromImages (data : ChatCompletionResponse) : Option String :=
  match data.choices.head? with
  | some ch =>
    (match ch.message.images with
     | some (img :: _) => imageFromEntry img
     | _ => none)
  | none => none

/-- Strategy 2 of `generateSceneImage`: probe a truthy
`choices[0].message.content`. -/
def fromContent (data : ChatCompletionResponse) : Option String :=
  match data.choices.head? with
  | some ch =>
    (match truthy ch.message.content with
     | some ctext => contentImage ctext
     | none => none)
  | none => none

/-- Image-reference extraction of `generateSceneImage` in
`src/unnamed/part_000`: structured image array first, then content
probing, else the unrecognized-format error is thrown. -/
def extractSceneImage (data : ChatCompletionResponse) : Except String String :=
  match fromImages data with
  | some u => .ok u
  | none =>
    match fromContent data with
    | some u => .ok u
    | none =>
      .error "AI did not return a recognizable image format. Check console for response."

/-- Model of `generateSceneImage` in `src/unnamed/part_000` around the extraction:
missing key and non-ok responses throw before any extraction is tried. -/
def generateSceneImage (apiKey : String) (responseOk : Bool) (status : Nat)
    (errText : String) (data : ChatCompletionResponse) : Except String String :=
  if apiKey = "" then .error "API Key is missing."
  else if !responseOk then
    .error ("OpenRouter Image API Error: " ++ toString status ++ " - " ++ errText)
  else extractSceneImage data

/-! ## Fence stripping (`src/services/geminiService.ts`, `generateMovieScript`) -/

/-- The global regex replace applied to `jsonStr` (empty replacement): the
anchored head alternative removes a leading ```` ```json ```` (greedy
optional group) or ```` ``` ````, and the anchored tail alternative removes
a trailing ```` ``` ```` not overlapping the head match. -/
def stripFenceMarkers (j : String) : String :=
  let rest :=
    if strStartsWith j "```json" then strDrop j 7
    else if strStartsWith j "```" then strDrop j 3
    else j
  if strEndsWith rest "```" then strDropEnd rest 3 else rest

/-- Script-response cleaning in `src/services/geminiService.ts`: trim the
raw text, and only when it starts with a code fence run the regex
replacement, before handing the result to `JSON.parse`. -/
def cleanScriptText (text : String) : String :=
  let jsonStr := jsTrim text
  if strStartsWith jsonStr "```" then stripFenceMarkers jsonStr else jsonStr

/-! ## Pipeline orchestrator (`src/unnamed/part_002`, `handleGenerate`) -/

/-- Observable component state of the `NewProject` component during a
`handleGenerate` run: the React state setters become field updates, calls
to `window.alert` and to `onProjectCreated` are recorded in lists, and the
two network entry points are counted.  `progressTrace` records every value
passed to `setProgress`, in order. -/
structure RunState where
  stepProcessing : Bool := false
  progress : Nat := 0
  processingStatus : String := "Initializing..."
  logs : List String := []
  alerts : List String := []
  saved : List Project := []
  scriptCalls : Nat := 0
  imageCalls : Nat := 0
  progressTrace : List Nat := []
deriving DecidableEq, Repr

/-- Model of `addLog` in `src/unnamed/part_002`: append one entry. -/
def addLog (st : RunState) (msg : String) : RunState :=
  { st with logs := st.logs ++ [msg] }

/-- Model of `setProgress`, with the passed value also recorded in the trace. -/
def setProgress (st : RunState) (p : Nat) : RunState :=
  { st with progress := p, progressTrace := st.progressTrace ++ [p] }

/-- Model of `setProcessingStatus`. -/
def setProcessingStatus (st : RunState) (msg : String) : RunState :=
  { st with processingStatus := msg }

/-- Model of `window.alert`, recorded. -/
def jsAlert (st : RunState) (msg : String) : RunState :=
  { st with alerts := st.alerts ++ [msg] }

/-- The `catch` block of `handleGenerate`: status becomes `Error Occurred`
and the failure message is logged; nothing is persisted. -/
def catchBlock (st : RunState) (msg : String) : RunState :=
  addLog (setProcessingStatus st "Error Occurred") ("CRITICAL ERROR: " ++ msg)

/-- The Step-3 loop of `handleGenerate`
(`for (let i = 0; i < totalScenes; i++) { … }`): per scene, the progress
value `20 + Math.floor(((i+1)/totalScenes)*80)` is set, the image call is
issued (`imageResult` is its oracle, indexed by scene position), and on
success the `imageUrl` of the scene is filled while on failure the error is
caught, one log entry is appended, and the loop continues. -/
def sceneLoop (imageResult : Nat → Except String String) (total : Nat) :
    Nat → List SceneData → RunState → List SceneData × RunState
  | _, [], st => ([], st)
  | i, scene :: rest, st =>
    let st := setProcessingStatus st
      ("Rendering Scene " ++ toString (i + 1) ++ " of " ++ toString total ++ "...")
    let st := setProgress st (20 + (80 * (i + 1)) / total)
    let st := { st with imageCalls := st.imageCalls + 1 }
    match imageResult i with
    | .ok imageUrl =>
      let st := addLog st ("Scene " ++ toString (i + 1) ++ " rendered successfully.")
      let res := sceneLoop imageResult total (i + 1) rest st
      ({ scene with imageUrl := some imageUrl } :: res.1, res.2)
    | .error e =>
      let st := addLog st ("Error rendering scene " ++ toString (i + 1) ++ ": " ++ e)
      let res := sceneLoop imageResult total (i + 1) rest st
      (scene :: res.1, res.2)

/-- The `newProject` object as first constructed in `handleGenerate`
(status `generating_script`, progress 5, no script yet); `objectUrl` models
`URL.createObjectURL(selectedFile)`. -/
def initialProject (mode : ProjectMode) (titleInput content : String)
    (selectedFile : Bool) (objectUrl : String) (lastFrameUrl : Option String)
    (type style customStyle : String) (length : VideoLength) (duration : ℚ)
    (projectId : String) (now : Nat) : Project :=
  { id := projectId
    title := if mode = ProjectMode.video_continuation then titleInput else "Untitled Project"
    createdAt := now
    mode := mode
    params :=
      { type := type, style := style, customStyle := customStyle
        length := length, customLength := duration
        content :=
          if mode = ProjectMode.video_continuation then
            "Continue story from video: " ++ titleInput
          else content
        videoUrl := if selectedFile then some objectUrl else none
        lastFrameUrl := truthy lastFrameUrl }
    script := none
    status := ProjectStatus.generating_script
    progress := 5 }

/-- The finished project handed to `onProjectCreated`: script attached with
the post-loop scenes, title defaulted (outside continuation mode) through
the title-or-default expression on `script.title`, status `completed`,
progress 100. -/
def completedProject (mode : ProjectMode) (newProject : Project)
    (script : MovieScriptData) (scenes : List SceneData) : Project :=
  { newProject with
    title :=
      if mode ≠ ProjectMode.video_continuation then
        (if script.title = "" then "Untitled Movie" else script.title)
      else newProject.title
    script := some { script with scenes := some scenes }
    status := ProjectStatus.completed
    progress := 100 }

/-- The success path of `handleGenerate` after `script.scenes` validated:
progress 20, script log entries, the Step-3 loop, then the completed
project is handed over (`onProjectCreated`, recorded in `saved`). -/
def scriptSuccess (mode : ProjectMode) (newProject : Project)
    (script : MovieScriptData) (scenes : List SceneData)
    (imageResult : Nat → Except String String) (st : RunState) : RunState :=
  let st := setProgress st 20
  let st := setProcessingStatus st
    ("Script \"" ++ script.title ++ "\" generated. Starting visual production...")
  let st := addLog st ("Script generated with " ++ toString scenes.length ++ " scenes.")
  let st :=
    if script.visualContext = "" then st
    else addLog st ("Visual Context established: " ++ script.visualContext.take 60 ++ "...")
  let res := sceneLoop imageResult scenes.length 0 scenes st
  let st := res.2
  let finished := completedProject mode newProject script res.1
  let st := setProcessingStatus st "Production Complete! Saving to Database..."
  let st := addLog st "All scenes rendered. Saving..."
  { st with saved := st.saved ++ [finished] }

/-- The `try` block of `handleGenerate`: initial UI updates, project
construction, the script request (`scriptResult` is the oracle for
`generateMovieScript`, with `.ok none` for a falsy parsed value), the
`!script || !script.scenes` validation throwing
`Received invalid script data from AI.`, then the success path; any throw
lands in `catchBlock`. -/
def handleGenerateBody (mode : ProjectMode) (titleInput content : String)
    (selectedFile : Bool) (objectUrl : String) (lastFrameUrl : Option String)
    (type style customStyle : String) (length : VideoLength)
    (customLength : Option Nat) (projectId : String) (now : Nat)
    (scriptResult : Except String (Option MovieScriptData))
    (imageResult : Nat → Except String String) (st0 : RunState) : RunState :=
  let st := { st0 with stepProcessing := true }
  let st := setProgress st 2
  let st := setProcessingStatus st "Initializing Studio..."
  let st := addLog st "System initialized."
  let duration := parseDuration length customLength
  let st := addLog st ("Drafting project in " ++ modeLabel mode ++ " mode...")
  let newProject := initialProject mode titleInput content selectedFile objectUrl
    lastFrameUrl type style customStyle length duration projectId now
  let st := setProcessingStatus st "Drafting Script & Storyboard..."
  let st := addLog st "Contacting Screenwriter Agent (OpenRouter / GPT-5)..."
  let st := { st with scriptCalls := st.scriptCalls + 1 }
  match scriptResult with
  | .error e => catchBlock st e
  | .ok none => catchBlock st "Received invalid script data from AI."
  | .ok (some script) =>
    match script.scenes with
    | none => catchBlock st "Received invalid script data from AI."
    | some scenes =>
      scriptSuccess mode
        { newProject with
          script := some script
          status := ProjectStatus.generating_images }
        script scenes imageResult st

/-- Model of `handleGenerate` in `src/unnamed/part_002` (second `NewProject`
variant): the credential guard and the per-mode form validation run first
— each failure is a bare `alert` + `return` — then the pipeline body. -/
def handleGenerate (apiKey : String) (mode : ProjectMode)
    (titleInput content : String) (selectedFile isProcessingVideo : Bool)
    (objectUrl : String) (lastFrameUrl : Option String)
    (type style customStyle : String) (length : VideoLength)
    (customLength : Option Nat) (projectId : String) (now : Nat)
    (scriptResult : Except String (Option MovieScriptData))
    (imageResult : Nat → Except String String) (st0 : RunState) : RunState :=
  if apiKey = "" then
    jsAlert st0 "Please configure your API Key in Settings first."
  else if mode = ProjectMode.video_continuation ∧ jsTrim titleInput = "" then
    jsAlert st0 "Please enter a project name."
  else if mode = ProjectMode.video_continuation ∧ selectedFile = false then
    jsAlert st0 "Please upload a video file."
  else if mode = ProjectMode.video_continuation ∧ isProcessingVideo = true then
    jsAlert st0 "Please wait for video processing to complete."
  else if mode ≠ ProjectMode.video_continuation ∧ jsTrim content = "" then
    jsAlert st0 "Please provide video content/instruction."
  else
    handleGenerateBody mode titleInput content selectedFile objectUrl lastFrameUrl
      type style customStyle length customLength projectId now
      scriptResult imageResult st0

/-- The form validation of `handleGenerate` succeeds (no alert-return is
taken after the credential guard). -/
def validationOk (mode : ProjectMode) (titleInput content : String)
    (selectedFile isProcessingVideo : Bool) : Bool :=
  match mode with
  | .video_continuation => !(jsTrim titleInput == "") && selectedFile && !isProcessingVideo
  | _ => !(jsTrim content == "")

/-! ### Derived descriptions of the run, used to state the claims -/

/-- Scenes after the Step-3 loop: position `k` of the input list is
processed with `imageResult (i + k)`. -/
def runScenes (imageResult : Nat → Except String String) (i : Nat) :
    List SceneData → List SceneData
  | [] => []
  | scene :: rest =>
    (match imageResult i with
     | .ok u => { scene with imageUrl := some u }
     | .error _ => scene) :: runScenes imageResult (i + 1) rest

/-- The one log entry produced for scene index `i` by the Step-3 loop. -/
def renderLog (imageResult : Nat → Except String String) (i : Nat) : String :=
  match imageResult i with
  | .ok _ => "Scene " ++ toString (i + 1) ++ " rendered successfully."
  | .error e => "Error rendering scene " ++ toString (i + 1) ++ ": " ++ e

/-- The log entries produced by the Step-3 loop, one per scene. -/
def sceneLogs (imageResult : Nat → Except String String) (i : Nat) :
    List SceneData → List String
  | [] => []
  | _ :: rest => renderLog imageResult i :: sceneLogs imageResult (i + 1) rest

/-- The progress values set by the Step-3 loop over `n` scenes starting at
index `i`, with denominator `total`. -/
def progressList (total : Nat) : Nat → Nat → List Nat
  | _, 0 => []
  | i, n + 1 => (20 + (80 * (i + 1)) / total) :: progressList total (i + 1) n

/-- The log entries of `handleGenerateBody` up to (and including) the
script request. -/
def preLogs (mode : ProjectMode) : List String :=
  ["System initialized.",
   "Drafting project in " ++ modeLabel mode ++ " mode...",
   "Contacting Screenwriter Agent (OpenRouter / GPT-5)..."]

/-- The log entries recorded between script attachment and the Step-3
loop. -/
def scriptLogs (script : MovieScriptData) (scenes : List SceneData) : List String :=
  ("Script generated with " ++ toString scenes.length ++ " scenes.") ::
    (if script.visualContext = "" then []
     else ["Visual Context established: " ++ script.visualContext.take 60 ++ "..."])

/-- The run state just before the script request resolves: step switched to
processing, progress 2 recorded, the three initial log entries appended,
status `Drafting Script & Storyboard...`, one script call issued. -/
def preState (mode : ProjectMode) (st0 : RunState) : RunState :=
  { st0 with
    stepProcessing := true
    progress := 2
    progressTrace := st0.progressTrace ++ [2]
    processingStatus := "Drafting Script & Storyboard..."
    logs := st0.logs ++ preLogs mode
    scriptCalls := st0.scriptCalls + 1 }

/-! ## Project store (`src/utils/db.ts`) -/

/-- Model of `saveProject` = `db.put(STORE_NAME, project)` on an object store keyed
by `id`: replace the record with the same key, else insert. -/
def saveProject (store : List Project) (p : Project) : List Project :=
  if store.any (fun q => q.id == p.id) then
    store.map (fun q => if q.id == p.id then p else q)
  else store ++ [p]

/-- Model of `getProjects` in `src/utils/db.ts`: fetch all records and sort by
`createdAt` descending (`(a, b) => b.createdAt - a.createdAt`, a stable
sort keeping `a` before `b` when `b.createdAt ≤ a.createdAt`). -/
def getProjects (store : List Project) : List Project :=
  store.mergeSort (fun a b => b.createdAt ≤ a.createdAt)

end SeeFactory

open SeeFactory

/-- C3: for every `durationMinutes`, the target scene count computed by
`generateMovieScript` (src/unnamed/part_000) is `1` when the duration is
below one minute, and `round(durationMinutes × 4)` with a floor of 1 —
the floor being inactive — when the duration is at least one minute. -/
theorem C3_scene_count_policy (d : ℚ) :
    (d < 1 → totalScenes d = 1) ∧
    (1 ≤ d → totalScenes d = max 1 (jsRound (d * 4))) ∧
    (1 ≤ d → totalScenes d = jsRound (d * 4)) := by
  refine ⟨fun h => by simp [totalScenes, h], fun h => by simp [totalScenes, not_lt.2 h],
    fun h => ?_⟩
  have h4 : (4 : ℚ) + 1/2 ≤ d * 4 + 1/2 := by linarith
  have hfl : (4 : ℤ) ≤ jsRound (d * 4) := by
    have h9 : ⌊(4 : ℚ) + 1/2⌋ = 4 := by norm_num
    have := Int.floor_le_floor h4
    rw [h9] at this
    simpa [jsRound] using this
  have h1 : (1 : ℤ) ≤ jsRound (d * 4) := le_trans (by norm_num) hfl
  simp [totalScenes, not_lt.2 h, max_eq_right h1]

/-- Witness for C3 at the concrete durations 1/4 (short form) and 3 minutes. -/
theorem C3_scene_count_policy_witness :
    totalScenes (1/4) = 1 ∧ totalScenes 3 = jsRound (3 * 4) :=
  ⟨(C3_scene_count_policy (1/4)).1 (by norm_num),
   (C3_scene_count_policy 3).2.2 (by norm_num)⟩

/-- Evaluation of JS truthiness at a non-empty string. -/
theorem truthy_some_of_ne {s : String} (h : s ≠ "") : truthy (some s) = some s := by
  simp [truthy, h]

/-- Evaluation of JS truthiness at a missing value. -/
theorem truthy_none : truthy none = none := rfl

/-- C2: `generateSceneImage` (src/unnamed/part_000) probes the provider
response in a fixed priority order — nested `image_url.url`, direct `url`,
`b64_json` wrapped as a `data:image/png;base64,` URI, then (when the
structured array is absent) a markdown image link in the content, then the
trimmed content itself when it starts with `http` or with `data:` — and
throws the unrecognized-image-format error exactly when no strategy
matches. -/
theorem C2_image_extraction_priority :
    (∀ (cont : Option String) (img : ImageEntry) (rest : List ImageEntry)
        (tail : List Choice) (u : String), u ≠ "" → img.image_url = some u →
        extractSceneImage ⟨⟨⟨cont, some (img :: rest)⟩⟩ :: tail⟩ = .ok u) ∧
    (∀ (cont : Option String) (img : ImageEntry) (rest : List ImageEntry)
        (tail : List Choice) (u : String), truthy img.image_url = none →
        u ≠ "" → img.url = some u →
        extractSceneImage ⟨⟨⟨cont, some (img :: rest)⟩⟩ :: tail⟩ = .ok u) ∧
    (∀ (cont : Option String) (img : ImageEntry) (rest : List ImageEntry)
        (tail : List Choice) (b : String), truthy img.image_url = none →
        truthy img.url = none → b ≠ "" → img.b64_json = some b →
        extractSceneImage ⟨⟨⟨cont, some (img :: rest)⟩⟩ :: tail⟩ =
          .ok ("data:image/png;base64," ++ b)) ∧
    (∀ (c : String) (tail : List Choice) (cap : String), c ≠ "" →
        markdownImageMatch c = some cap → cap ≠ "" →
        extractSceneImage ⟨⟨⟨some c, none⟩⟩ :: tail⟩ = .ok cap) ∧
    (∀ (c : String) (tail : List Choice), c ≠ "" → markdownImageMatch c = none →
        strStartsWith (jsTrim c) "http" = true →
        extractSceneImage ⟨⟨⟨some c, none⟩⟩ :: tail⟩ = .ok (jsTrim c)) ∧
    (∀ (c : String) (tail : List Choice), c ≠ "" → markdownImageMatch c = none →
        strStartsWith (jsTrim c) "http" = false →
        strStartsWith (jsTrim c) "data:" = true →
        extractSceneImage ⟨⟨⟨some c, none⟩⟩ :: tail⟩ = .ok (jsTrim c)) ∧
    (∀ data : ChatCompletionResponse,
        extractSceneImage data =
            .error "AI did not return a recognizable image format. Check console for response."
          ↔ fromImages data = none ∧ fromContent data = none) := by
  refine ⟨?_, ?_, ?_, ?_, ?_, ?_, ?_⟩
  · intro cont img rest tail u hu himg
    simp [extractSceneImage, fromImages, imageFromEntry, himg, truthy_some_of_ne hu]
  · intro cont img rest tail u h1 hu himg
    simp [extractSceneImage, fromImages, imageFromEntry, h1, himg, truthy_some_of_ne hu]
  · intro cont img rest tail b h1 h2 hb himg
    simp [extractSceneImage, fromImages, imageFromEntry, h1, h2, himg, truthy_some_of_ne hb]
  · intro c tail cap hc hmd hcap
    simp [extractSceneImage, fromImages, fromContent, contentImage,
      truthy_some_of_ne hc, hmd, hcap]
  · intro c tail hc hmd hhttp
    simp [extractSceneImage, fromImages, fromContent, contentImage, bareContentImage,
      truthy_some_of_ne hc, hmd, hhttp]
  · intro c tail hc hmd hhttp hdata
    simp [extractSceneImage, fromImages, fromContent, contentImage, bareContentImage,
      truthy_some_of_ne hc, hmd, hhttp, hdata]
  · intro data
    constructor
    · intro h
      cases hfi : fromImages data with
      | some u => simp [extractSceneImage, hfi] at h
      | none =>
        cases hfc : fromContent data with
        | some u => simp [extractSceneImage, hfi, hfc] at h
        | none => exact ⟨rfl, rfl⟩
    · rintro ⟨h1, h2⟩
      simp [extractSceneImage, h1, h2]

/-- Witness for C2: a response carrying all three structured fields yields
the nested URL; a response matching no strategy yields the error. -/
theorem C2_image_extraction_priority_witness :
    extractSceneImage ⟨[⟨⟨some "c", some [⟨some "N", some "U", some "B"⟩]⟩⟩]⟩ = .ok "N" ∧
    extractSceneImage ⟨[⟨⟨some "nothing", none⟩⟩]⟩ =
      .error "AI did not return a recognizable image format. Check console for response." :=
  ⟨C2_image_extraction_priority.1 (some "c") ⟨some "N", some "U", some "B"⟩ [] [] "N"
      (by decide) rfl,
   (C2_image_extraction_priority.2.2.2.2.2.2 ⟨[⟨⟨some "nothing", none⟩⟩]⟩).2 ⟨rfl, rfl⟩⟩

/-- Dropping leading whitespace is the identity when the head is not
whitespace. -/
theorem dropWhile_space_eq_self {cs : List Char}
    (h : ∀ c, cs.head? = some c → isJsSpace c = false) :
    cs.dropWhile isJsSpace = cs := by
  cases cs with
  | nil => rfl
  | cons a l => exact List.dropWhile_cons_of_neg (by simp [h a rfl])

/-- Trimming is the identity on a list delimited by non-whitespace
characters. -/
theorem trimChars_of_cons_append (c : Char) (mid : List Char) (d : Char)
    (hc : isJsSpace c = false) (hd : isJsSpace d = false) :
    trimChars (c :: (mid ++ [d])) = c :: (mid ++ [d]) := by
  unfold trimChars
  rw [List.dropWhile_cons_of_neg (by simp [hc])]
  have hrev : (c :: (mid ++ [d])).reverse = d :: (mid.reverse ++ [c]) := by simp
  rw [hrev, List.dropWhile_cons_of_neg (by simp [hd]), ← hrev, List.reverse_reverse]

/-- Trimming ignores a single newline added on each side. -/
theorem trimChars_newline_wrap (t : List Char) :
    trimChars ('\n' :: (t ++ ['\n'])) = trimChars t := by
  unfold trimChars
  rw [List.dropWhile_cons_of_pos (by rfl), List.dropWhile_append]
  by_cases h : (t.dropWhile isJsSpace).isEmpty
  · rw [List.isEmpty_eq_true] at h
    simp [h, List.dropWhile]
  · rw [if_neg (by simp [h])]
    rw [List.reverse_append, List.reverse_singleton, List.singleton_append,
      List.dropWhile_cons_of_pos (by rfl)]

/-- C4: the script-response cleaning of `generateMovieScript` in
`src/services/geminiService.ts` strips triple-backtick fences (optionally
tagged `json`) before `JSON.parse`: a body wrapped in fences cleans to a
text that is trim-identical to the bare body — and `JSON.parse` ignores
leading/trailing whitespace — so parsing yields the same object as for the
unfenced body, which is passed through modulo the initial trim. -/
theorem C4_fenced_body_parses_same (s : String)
    (h : strStartsWith (jsTrim s) "```" = false) :
    jsTrim (cleanScriptText ("```json\n" ++ s ++ "\n```")) = jsTrim s ∧
    jsTrim (cleanScriptText ("```\n" ++ s ++ "\n```")) = jsTrim s ∧
    cleanScriptText s = jsTrim s := by
  refine ⟨?_, ?_, ?_⟩
  · have hdata : ("```json\n" ++ s ++ "\n```").data
        = '`' :: (('`' :: '`' :: 'j' :: 's' :: 'o' :: 'n' :: '\n' ::
            (s.data ++ ['\n', '`', '`'])) ++ ['`']) := by
      simp
    have htrim := trimChars_of_cons_append '`'
      ('`' :: '`' :: 'j' :: 's' :: 'o' :: 'n' :: '\n' :: (s.data ++ ['\n', '`', '`']))
      '`' rfl rfl
    simp only [cleanScriptText, jsTrim, hdata, htrim]
    simp only [strStartsWith, stripFenceMarkers, strDrop, strDropEnd, charsStart]
    have hends : strEndsWith ⟨'\n' :: (s.data ++ ['\n', '`', '`', '`'])⟩ "```" = true := by
      simp [strEndsWith, charsStart]
    simp [hends, trimChars_newline_wrap]
  · have hdata : ("```\n" ++ s ++ "\n```").data
        = '`' :: (('`' :: '`' :: '\n' :: (s.data ++ ['\n', '`', '`'])) ++ ['`']) := by
      simp
    have htrim := trimChars_of_cons_append '`'
      ('`' :: '`' :: '\n' :: (s.data ++ ['\n', '`', '`'])) '`' rfl rfl
    simp only [cleanScriptText, jsTrim, hdata, htrim]
    simp only [strStartsWith, stripFenceMarkers, strDrop, strDropEnd, charsStart]
    have hends : strEndsWith ⟨'\n' :: (s.data ++ ['\n', '`', '`', '`'])⟩ "```" = true := by
      simp [strEndsWith, charsStart]
    simp [hends, trimChars_newline_wrap]
  · simp [cleanScriptText, h]

/-- Witness for C4 at a concrete JSON body. -/
theorem C4_fenced_body_parses_same_witness :
    jsTrim (cleanScriptText "```json\n[1, 2]\n```") = jsTrim "[1, 2]" ∧
    cleanScriptText "[1, 2]" = jsTrim "[1, 2]" := by
  have h := C4_fenced_body_parses_same "[1, 2]" (by decide)
  exact ⟨h.1, h.2.2⟩

/-- The Step-3 loop returns `runScenes`: success fills `imageUrl`, failure
leaves the scene untouched, and every scene is reached. -/
theorem sceneLoop_fst (r : Nat → Except String String) (total : Nat) :
    ∀ (scenes : List SceneData) (i : Nat) (st : RunState),
      (sceneLoop r total i scenes st).1 = runScenes r i scenes := by
  intro scenes
  induction scenes with
  | nil => intro i st; rfl
  | cons scene rest ih =>
    intro i st
    simp only [sceneLoop, runScenes]
    cases hr : r i with
    | ok u => simp [hr, ih]
    | error e => simp [hr, ih]

/-- The Step-3 loop appends exactly one log entry per scene. -/
theorem sceneLoop_logs (r : Nat → Except String String) (total : Nat) :
    ∀ (scenes : List SceneData) (i : Nat) (st : RunState),
      (sceneLoop r total i scenes st).2.logs = st.logs ++ sceneLogs r i scenes := by
  intro scenes
  induction scenes with
  | nil => intro i st; simp [sceneLoop, sceneLogs]
  | cons scene rest ih =>
    intro i st
    simp only [sceneLoop, sceneLogs]
    cases hr : r i with
    | ok u => simp [hr, ih, addLog, setProgress, setProcessingStatus, renderLog]
    | error e => simp [hr, ih, addLog, setProgress, setProcessingStatus, renderLog]

/-- The Step-3 loop never persists anything. -/
theorem sceneLoop_saved (r : Nat → Except String String) (total : Nat) :
    ∀ (scenes : List SceneData) (i : Nat) (st : RunState),
      (sceneLoop r total i scenes st).2.saved = st.saved := by
  intro scenes
  induction scenes with
  | nil => intro i st; rfl
  | cons scene rest ih =>
    intro i st
    simp only [sceneLoop]
    cases hr : r i with
    | ok u => simp [hr, ih, addLog, setProgress, setProcessingStatus]
    | error e => simp [hr, ih, addLog, setProgress, setProcessingStatus]

/-- The Step-3 loop issues exactly one image request per scene. -/
theorem sceneLoop_imageCalls (r : Nat → Except String String) (total : Nat) :
    ∀ (scenes : List SceneData) (i : Nat) (st : RunState),
      (sceneLoop r total i scenes st).2.imageCalls = st.imageCalls + scenes.length := by
  intro scenes
  induction scenes with
  | nil => intro i st; simp [sceneLoop]
  | cons scene rest ih =>
    intro i st
    simp only [sceneLoop]
    cases hr : r i with
    | ok u =>
      simp [hr, ih, addLog, setProgress, setProcessingStatus]
      omega
    | error e =>
      simp [hr, ih, addLog, setProgress, setProcessingStatus]
      omega

/-- The progress values set by the Step-3 loop. -/
theorem sceneLoop_trace (r : Nat → Except String String) (total : Nat) :
    ∀ (scenes : List SceneData) (i : Nat) (st : RunState),
      (sceneLoop r total i scenes st).2.progressTrace =
        st.progressTrace ++ progressList total i scenes.length := by
  intro scenes
  induction scenes with
  | nil => intro i st; simp [sceneLoop, progressList]
  | cons scene rest ih =>
    intro i st
    simp only [sceneLoop, List.length_cons, progressList]
    cases hr : r i with
    | ok u => simp [hr, ih, addLog, setProgress, setProcessingStatus]
    | error e => simp [hr, ih, addLog, setProgress, setProcessingStatus]

/-- The progress value held after the Step-3 loop. -/
theorem sceneLoop_progress (r : Nat → Except String String) (total : Nat) :
    ∀ (scenes : List SceneData) (i : Nat) (st : RunState),
      (sceneLoop r total i scenes st).2.progress =
        if scenes.length = 0 then st.progress
        else 20 + (80 * (i + scenes.length)) / total := by
  intro scenes
  induction scenes with
  | nil => intro i st; simp [sceneLoop]
  | cons scene rest ih =>
    intro i st
    have harg : 80 * (i + 1 + rest.length) = 80 * (i + (rest.length + 1)) := by ring
    simp only [sceneLoop, List.length_cons]
    cases hr : r i with
    | ok u =>
      rcases Nat.eq_zero_or_pos rest.length with hrest | hrest
      · simp [hr, ih, hrest, addLog, setProgress, setProcessingStatus]
      · simp only [hr, ih, addLog, setProgress, setProcessingStatus,
          if_neg (Nat.pos_iff_ne_zero.mp hrest), harg]
        simp
    | error e =>
      rcases Nat.eq_zero_or_pos rest.length with hrest | hrest
      · simp [hr, ih, hrest, addLog, setProgress, setProcessingStatus]
      · simp only [hr, ih, addLog, setProgress, setProcessingStatus,
          if_neg (Nat.pos_iff_ne_zero.mp hrest), harg]
        simp

/-- Remaining state fields are untouched by the Step-3 loop. -/
theorem sceneLoop_rest (r : Nat → Except String String) (total : Nat) :
    ∀ (scenes : List SceneData) (i : Nat) (st : RunState),
      (sceneLoop r total i scenes st).2.alerts = st.alerts ∧
      (sceneLoop r total i scenes st).2.scriptCalls = st.scriptCalls ∧
      (sceneLoop r total i scenes st).2.stepProcessing = st.stepProcessing := by
  intro scenes
  induction scenes with
  | nil => intro i st; exact ⟨rfl, rfl, rfl⟩
  | cons scene rest ih =>
    intro i st
    simp only [sceneLoop]
    cases hr : r i with
    | ok u => simp [hr, ih, addLog, setProgress, setProcessingStatus]
    | error e => simp [hr, ih, addLog, setProgress, setProcessingStatus]

/-- Lemma: `runScenes` preserves the list length; the loop continues past
failures and processes every scene. -/
theorem runScenes_length (r : Nat → Except String String) :
    ∀ (scenes : List SceneData) (i : Nat),
      (runScenes r i scenes).length = scenes.length := by
  intro scenes
  induction scenes with
  | nil => intro i; rfl
  | cons scene rest ih =>
    intro i
    cases hr : r i with
    | ok u => simp [runScenes, hr, ih]
    | error e => simp [runScenes, hr, ih]

/-- A scene whose image call fails is returned unchanged (in particular its
`imageUrl` stays unset). -/
theorem runScenes_get_error (r : Nat → Except String String) :
    ∀ (scenes : List SceneData) (i k : Nat) (e : String),
      r (i + k) = .error e → (runScenes r i scenes).get? k = scenes.get? k := by
  intro scenes
  induction scenes with
  | nil => intro i k e _; rfl
  | cons scene rest ih =>
    intro i k e hk
    cases k with
    | zero =>
      simp only [Nat.add_zero] at hk
      simp [runScenes, hk]
    | succ k =>
      have : r (i + 1 + k) = .error e := by
        have : i + 1 + k = i + (k + 1) := by omega
        rw [this]; exact hk
      cases hr : r i with
      | ok u => simpa [runScenes, hr] using ih (i + 1) k e this
      | error e2 => simpa [runScenes, hr] using ih (i + 1) k e this

/-- The per-scene log entry at a failing index. -/
theorem sceneLogs_get_error (r : Nat → Except String String) :
    ∀ (scenes : List SceneData) (i k : Nat) (e : String), k < scenes.length →
      r (i + k) = .error e →
      (sceneLogs r i scenes).get? k =
        some ("Error rendering scene " ++ toString (i + k + 1) ++ ": " ++ e) := by
  intro scenes
  induction scenes with
  | nil => intro i k e hk _; simp at hk
  | cons scene rest ih =>
    intro i k e hk hke
    cases k with
    | zero =>
      simp only [Nat.add_zero] at hke
      simp [sceneLogs, renderLog, hke]
    | succ k =>
      have hke2 : r (i + 1 + k) = .error e := by
        have : i + 1 + k = i + (k + 1) := by omega
        rw [this]; exact hke
      have hk2 : k < rest.length := by
        simp only [List.length_cons] at hk
        omega
      have := ih (i + 1) k e hk2 hke2
      have harg : i + 1 + k = i + (k + 1) := by omega
      rw [harg] at this
      simp only [sceneLogs, List.get?_cons_succ, this]

/-- Lemma: `sceneLogs` has exactly one entry per scene. -/
theorem sceneLogs_length (r : Nat → Except String String) :
    ∀ (scenes : List SceneData) (i : Nat),
      (sceneLogs r i scenes).length = scenes.length := by
  intro scenes
  induction scenes with
  | nil => intro i; rfl
  | cons scene rest ih => intro i; simp [sceneLogs, ih]

/-- Entry `k` of the loop progress values. -/
theorem progressList_get (total : Nat) :
    ∀ (n i k : Nat), k < n →
      (progressList total i n).get? k = some (20 + (80 * (i + k + 1)) / total) := by
  intro n
  induction n with
  | zero => intro i k hk; simp at hk
  | succ n ih =>
    intro i k hk
    cases k with
    | zero => simp [progressList]
    | succ k =>
      have hk2 : k < n := by omega
      have := ih (i + 1) k hk2
      have harg : i + 1 + k = i + (k + 1) := by omega
      rw [harg] at this
      simp only [progressList, List.get?_cons_succ, this]

/-- With a non-empty credential and passing validation, `handleGenerate`
runs its body. -/
theorem handleGenerate_pass (apiKey : String) (mode : ProjectMode)
    (titleInput content : String) (selectedFile isProcessingVideo : Bool)
    (objectUrl : String) (lastFrameUrl : Option String)
    (type style customStyle : String) (length : VideoLength)
    (customLength : Option Nat) (projectId : String) (now : Nat)
    (scriptResult : Except String (Option MovieScriptData))
    (imageResult : Nat → Except String String) (st0 : RunState)
    (hkey : ¬ apiKey = "")
    (hval : validationOk mode titleInput content selectedFile isProcessingVideo = true) :
    handleGenerate apiKey mode titleInput content selectedFile isProcessingVideo
        objectUrl lastFrameUrl type style customStyle length customLength
        projectId now scriptResult imageResult st0 =
      handleGenerateBody mode titleInput content selectedFile objectUrl lastFrameUrl
        type style customStyle length customLength projectId now
        scriptResult imageResult st0 := by
  unfold handleGenerate
  rw [if_neg hkey]
  cases mode with
  | video_continuation =>
    simp only [validationOk, Bool.and_eq_true, Bool.not_eq_true', beq_eq_false_iff_ne,
      ne_eq] at hval
    obtain ⟨⟨h1, h2⟩, h3⟩ := hval
    simp [h1, h2, h3]
  | storyboard =>
    simp only [validationOk, Bool.not_eq_true', beq_eq_false_iff_ne, ne_eq] at hval
    simp [hval]
  | freeform =>
    simp only [validationOk, Bool.not_eq_true', beq_eq_false_iff_ne, ne_eq] at hval
    simp [hval]

/-- The body reduced on a script-request failure. -/
theorem handleGenerateBody_error (mode : ProjectMode)
    (titleInput content : String) (selectedFile : Bool) (objectUrl : String)
    (lastFrameUrl : Option String) (type style customStyle : String)
    (length : VideoLength) (customLength : Option Nat) (projectId : String)
    (now : Nat) (e : String) (imageResult : Nat → Except String String)
    (st0 : RunState) :
    handleGenerateBody mode titleInput content selectedFile objectUrl lastFrameUrl
        type style customStyle length customLength projectId now
        (.error e) imageResult st0 =
      catchBlock (preState mode st0) e := by
  simp [handleGenerateBody, preState, preLogs, addLog, setProgress, setProcessingStatus,
    catchBlock]

/-- The body reduced when the parsed script lacks the `scenes` field. -/
theorem handleGenerateBody_noScenes (mode : ProjectMode)
    (titleInput content : String) (selectedFile : Bool) (objectUrl : String)
    (lastFrameUrl : Option String) (type style customStyle : String)
    (length : VideoLength) (customLength : Option Nat) (projectId : String)
    (now : Nat) (script : MovieScriptData) (imageResult : Nat → Except String String)
    (st0 : RunState) (hsc : script.scenes = none) :
    handleGenerateBody mode titleInput content selectedFile objectUrl lastFrameUrl
        type style customStyle length customLength projectId now
        (.ok (some script)) imageResult st0 =
      catchBlock (preState mode st0) "Received invalid script data from AI." := by
  simp [handleGenerateBody, hsc, preState, preLogs, addLog, setProgress,
    setProcessingStatus, catchBlock]

/-- The body reduced on a valid script. -/
theorem handleGenerateBody_success (mode : ProjectMode)
    (titleInput content : String) (selectedFile : Bool) (objectUrl : String)
    (lastFrameUrl : Option String) (type style customStyle : String)
    (length : VideoLength) (customLength : Option Nat) (projectId : String)
    (now : Nat) (script : MovieScriptData) (scenes : List SceneData)
    (imageResult : Nat → Except String String) (st0 : RunState)
    (hsc : script.scenes = some scenes) :
    handleGenerateBody mode titleInput content selectedFile objectUrl lastFrameUrl
        type style customStyle length customLength projectId now
        (.ok (some script)) imageResult st0 =
      scriptSuccess mode
        { initialProject mode titleInput content selectedFile objectUrl lastFrameUrl
            type style customStyle length (parseDuration length customLength)
            projectId now with
          script := some script
          status := ProjectStatus.generating_images }
        script scenes imageResult (preState mode st0) := by
  simp [handleGenerateBody, hsc, preState, preLogs, addLog, setProgress,
    setProcessingStatus]

/-- The success path persists exactly the completed project. -/
theorem scriptSuccess_saved (mode : ProjectMode) (proj : Project)
    (script : MovieScriptData) (scenes : List SceneData)
    (r : Nat → Except String String) (st : RunState) :
    (scriptSuccess mode proj script scenes r st).saved =
      st.saved ++ [completedProject mode proj script (runScenes r 0 scenes)] := by
  by_cases hvc : script.visualContext = "" <;>
    simp [scriptSuccess, hvc, addLog, setProgress, setProcessingStatus,
      sceneLoop_saved, sceneLoop_fst]

/-- The log produced by the success path. -/
theorem scriptSuccess_logs (mode : ProjectMode) (proj : Project)
    (script : MovieScriptData) (scenes : List SceneData)
    (r : Nat → Except String String) (st : RunState) :
    (scriptSuccess mode proj script scenes r st).logs =
      st.logs ++ scriptLogs script scenes ++ sceneLogs r 0 scenes ++
        ["All scenes rendered. Saving..."] := by
  by_cases hvc : script.visualContext = "" <;>
    simp [scriptSuccess, scriptLogs, hvc, addLog, setProgress, setProcessingStatus,
      sceneLoop_logs]

/-- The progress values set by the success path: 20 at script attachment,
then the per-scene values. -/
theorem scriptSuccess_trace (mode : ProjectMode) (proj : Project)
    (script : MovieScriptData) (scenes : List SceneData)
    (r : Nat → Except String String) (st : RunState) :
    (scriptSuccess mode proj script scenes r st).progressTrace =
      st.progressTrace ++ 20 :: progressList scenes.length 0 scenes.length := by
  by_cases hvc : script.visualContext = "" <;>
    simp [scriptSuccess, hvc, addLog, setProgress, setProcessingStatus,
      sceneLoop_trace]

/-- The final progress of the success path: 100 for a non-empty scene list
(and the initial 20 when the script has no scenes at all). -/
theorem scriptSuccess_progress (mode : ProjectMode) (proj : Project)
    (script : MovieScriptData) (scenes : List SceneData)
    (r : Nat → Except String String) (st : RunState) :
    (scriptSuccess mode proj script scenes r st).progress =
      if scenes.length = 0 then 20 else 100 := by
  rcases Nat.eq_zero_or_pos scenes.length with hn | hn
  · by_cases hvc : script.visualContext = "" <;>
      simp [scriptSuccess, hvc, addLog, setProgress, setProcessingStatus,
        sceneLoop_progress, hn]
  · have h80 : 80 * scenes.length / scenes.length = 80 := Nat.mul_div_cancel 80 hn
    by_cases hvc : script.visualContext = "" <;>
      simp [scriptSuccess, hvc, addLog, setProgress, setProcessingStatus,
        sceneLoop_progress, Nat.pos_iff_ne_zero.mp hn, h80]

/-- The success path issues one image request per scene and ends in the
production-complete status. -/
theorem scriptSuccess_rest (mode : ProjectMode) (proj : Project)
    (script : MovieScriptData) (scenes : List SceneData)
    (r : Nat → Except String String) (st : RunState) :
    (scriptSuccess mode proj script scenes r st).imageCalls =
        st.imageCalls + scenes.length ∧
      (scriptSuccess mode proj script scenes r st).processingStatus =
        "Production Complete! Saving to Database..." ∧
      (scriptSuccess mode proj script scenes r st).alerts = st.alerts := by
  refine ⟨?_, ?_, ?_⟩ <;>
  · by_cases hvc : script.visualContext = "" <;>
      simp [scriptSuccess, hvc, addLog, setProgress, setProcessingStatus,
        sceneLoop_imageCalls, sceneLoop_rest]

/-- The body reduced when `JSON.parse` produced a falsy value (`!script`). -/
theorem handleGenerateBody_nullScript (mode : ProjectMode)
    (titleInput content : String) (selectedFile : Bool) (objectUrl : String)
    (lastFrameUrl : Option String) (type style customStyle : String)
    (length : VideoLength) (customLength : Option Nat) (projectId : String)
    (now : Nat) (imageResult : Nat → Except String String) (st0 : RunState) :
    handleGenerateBody mode titleInput content selectedFile objectUrl lastFrameUrl
        type style customStyle length customLength projectId now
        (.ok none) imageResult st0 =
      catchBlock (preState mode st0) "Received invalid script data from AI." := by
  simp [handleGenerateBody, preState, preLogs, addLog, setProgress,
    setProcessingStatus, catchBlock]

/-- With a non-empty credential but failing validation, `handleGenerate` is
a bare alert-and-return. -/
theorem handleGenerate_invalid (apiKey : String) (mode : ProjectMode)
    (titleInput content : String) (selectedFile isProcessingVideo : Bool)
    (objectUrl : String) (lastFrameUrl : Option String)
    (type style customStyle : String) (length : VideoLength)
    (customLength : Option Nat) (projectId : String) (now : Nat)
    (scriptResult : Except String (Option MovieScriptData))
    (imageResult : Nat → Except String String) (st0 : RunState)
    (hkey : ¬ apiKey = "")
    (hval : validationOk mode titleInput content selectedFile isProcessingVideo = false) :
    ∃ msg, handleGenerate apiKey mode titleInput content selectedFile isProcessingVideo
        objectUrl lastFrameUrl type style customStyle length customLength
        projectId now scriptResult imageResult st0 = jsAlert st0 msg := by
  unfold handleGenerate
  rw [if_neg hkey]
  cases mode with
  | video_continuation =>
    by_cases h1 : jsTrim titleInput = ""
    · exact ⟨"Please enter a project name.", by simp [h1]⟩
    · by_cases h2 : selectedFile = true
      · by_cases h3 : isProcessingVideo = true
        · exact ⟨"Please wait for video processing to complete.", by simp [h1, h2, h3]⟩
        · exfalso
          simp [validationOk, h1, h2, h3] at hval
      · have h2f : selectedFile = false := by revert h2; cases selectedFile <;> simp
        exact ⟨"Please upload a video file.", by simp [h1, h2f]⟩
  | storyboard =>
    by_cases h : jsTrim content = ""
    · exact ⟨"Please provide video content/instruction.", by simp [h]⟩
    · exfalso
      simp [validationOk, h] at hval
  | freeform =>
    by_cases h : jsTrim content = ""
    · exact ⟨"Please provide video content/instruction.", by simp [h]⟩
    · exfalso
      simp [validationOk, h] at hval

/-- C1: in Step 3 of `handleGenerate` (src/unnamed/part_002), every scene
whose image call throws has the error caught — the returned scene list
keeps its full length, the failing scene is returned unchanged with its
`imageUrl` still unset, and the loop log holds exactly one entry per scene,
the entry of the failing scene being its error message — and every run that
passes script generation, under an arbitrary image oracle (including one
failing every call), persists exactly one project whose final status is
`completed` with progress 100. -/
theorem C1_per_scene_failures_nonfatal (apiKey : String) (mode : ProjectMode)
    (titleInput content : String) (selectedFile isProcessingVideo : Bool)
    (objectUrl : String) (lastFrameUrl : Option String)
    (type style customStyle : String) (length : VideoLength)
    (customLength : Option Nat) (projectId : String) (now : Nat)
    (script : MovieScriptData) (scenes : List SceneData)
    (imageResult : Nat → Except String String) (st0 : RunState)
    (hkey : ¬ apiKey = "")
    (hval : validationOk mode titleInput content selectedFile isProcessingVideo = true)
    (hsc : script.scenes = some scenes) :
    (handleGenerate apiKey mode titleInput content selectedFile isProcessingVideo
        objectUrl lastFrameUrl type style customStyle length customLength
        projectId now (.ok (some script)) imageResult st0).saved =
      st0.saved ++
        [completedProject mode
          { initialProject mode titleInput content selectedFile objectUrl lastFrameUrl
              type style customStyle length (parseDuration length customLength)
              projectId now with
            script := some script
            status := ProjectStatus.generating_images }
          script (runScenes imageResult 0 scenes)] ∧
    (∀ (m : ProjectMode) (pr : Project) (s : MovieScriptData) (sc : List SceneData),
      (completedProject m pr s sc).status = ProjectStatus.completed ∧
      (completedProject m pr s sc).progress = 100) ∧
    (runScenes imageResult 0 scenes).length = scenes.length ∧
    (handleGenerate apiKey mode titleInput content selectedFile isProcessingVideo
        objectUrl lastFrameUrl type style customStyle length customLength
        projectId now (.ok (some script)) imageResult st0).logs =
      st0.logs ++ preLogs mode ++ scriptLogs script scenes ++
        sceneLogs imageResult 0 scenes ++ ["All scenes rendered. Saving..."] ∧
    (sceneLogs imageResult 0 scenes).length = scenes.length ∧
    (∀ (k : Nat) (e : String), k < scenes.length → imageResult k = .error e →
      (runScenes imageResult 0 scenes).get? k = scenes.get? k ∧
      (sceneLogs imageResult 0 scenes).get? k =
        some ("Error rendering scene " ++ toString (k + 1) ++ ": " ++ e)) := by
  rw [handleGenerate_pass _ _ _ _ _ _ _ _ _ _ _ _ _ _ _ _ _ _ hkey hval,
    handleGenerateBody_success _ _ _ _ _ _ _ _ _ _ _ _ _ _ _ _ _ hsc]
  refine ⟨?_, ?_, runScenes_length imageResult scenes 0, ?_,
    sceneLogs_length imageResult scenes 0, ?_⟩
  · rw [scriptSuccess_saved]
    simp [preState]
  · intro m pr s sc
    exact ⟨rfl, rfl⟩
  · rw [scriptSuccess_logs]
    simp [preState]
  · intro k e hk hke
    refine ⟨runScenes_get_error imageResult scenes 0 k e (by simpa using hke), ?_⟩
    have := sceneLogs_get_error imageResult scenes 0 k e hk (by simpa using hke)
    simpa using this

/-- Witness for C1: a two-scene run in which every image call fails still
persists a completed project at progress 100, and scene 1 keeps an unset
image reference with its single error log entry. -/
theorem C1_per_scene_failures_nonfatal_witness :
    validationOk ProjectMode.storyboard "" "x" false false = true ∧
    ((handleGenerate "k" ProjectMode.storyboard "" "x" false false "" none
        "Action" "Cyberpunk" "" (VideoLength.minutes 1) none "p" 0
        (.ok (some { title := "T", scenes := some [{ id := "a" }, { id := "b" }] }))
        (fun _ => .error "boom") {}).saved.map
      (fun pr => (pr.status, pr.progress)) = [(ProjectStatus.completed, 100)]) ∧
    (runScenes (fun _ => .error "boom") 0 [{ id := "a" }, { id := "b" }]).get? 1 =
      some { id := "b" } ∧
    (sceneLogs (fun _ => .error "boom") 0 [{ id := "a" }, { id := "b" }]).get? 1 =
      some "Error rendering scene 2: boom" := by
  have h := C1_per_scene_failures_nonfatal "k" ProjectMode.storyboard "" "x" false false
    "" none "Action" "Cyberpunk" "" (VideoLength.minutes 1) none "p" 0
    { title := "T", scenes := some [{ id := "a" }, { id := "b" }] }
    [{ id := "a" }, { id := "b" }] (fun _ => .error "boom") {}
    (by decide) (by decide) rfl
  refine ⟨by decide, ?_, ?_, ?_⟩
  · rw [h.1]
    rfl
  · have hr := (h.2.2.2.2.2 1 "boom" (by decide) rfl).1
    rw [hr]
    rfl
  · have hr := (h.2.2.2.2.2 1 "boom" (by decide) rfl).2
    rw [hr]
    rfl

/-- C8: during Step 3 of a valid `handleGenerate` run with `N` scenes, the
progress values set are exactly 2, then 20 right after the script is
attached, then per scene `20 + floor((completedCount / N) × 80)` where
`completedCount = k + 1` after scene index `k`; with at least one scene the
final progress is exactly 100. -/
theorem C8_progress_advances_linearly (apiKey : String) (mode : ProjectMode)
    (titleInput content : String) (selectedFile isProcessingVideo : Bool)
    (objectUrl : String) (lastFrameUrl : Option String)
    (type style customStyle : String) (length : VideoLength)
    (customLength : Option Nat) (projectId : String) (now : Nat)
    (script : MovieScriptData) (scenes : List SceneData)
    (imageResult : Nat → Except String String) (st0 : RunState)
    (hkey : ¬ apiKey = "")
    (hval : validationOk mode titleInput content selectedFile isProcessingVideo = true)
    (hsc : script.scenes = some scenes) :
    (handleGenerate apiKey mode titleInput content selectedFile isProcessingVideo
        objectUrl lastFrameUrl type style customStyle length customLength
        projectId now (.ok (some script)) imageResult st0).progressTrace =
      st0.progressTrace ++ [2, 20] ++ progressList scenes.length 0 scenes.length ∧
    (∀ k : Nat, k < scenes.length →
      (progressList scenes.length 0 scenes.length).get? k =
        some (20 + (80 * (k + 1)) / scenes.length)) ∧
    (0 < scenes.length →
      (handleGenerate apiKey mode titleInput content selectedFile isProcessingVideo
        objectUrl lastFrameUrl type style customStyle length customLength
        projectId now (.ok (some script)) imageResult st0).progress = 100) := by
  rw [handleGenerate_pass _ _ _ _ _ _ _ _ _ _ _ _ _ _ _ _ _ _ hkey hval,
    handleGenerateBody_success _ _ _ _ _ _ _ _ _ _ _ _ _ _ _ _ _ hsc]
  refine ⟨?_, ?_, ?_⟩
  · rw [scriptSuccess_trace]
    simp [preState]
  · intro k hk
    have := progressList_get scenes.length scenes.length 0 k hk
    simpa using this
  · intro hn
    rw [scriptSuccess_progress]
    simp [Nat.pos_iff_ne_zero.mp hn]

/-- Witness for C8: a three-scene run records the trace
`[2, 20, 46, 73, 100]` and ends at progress 100. -/
theorem C8_progress_advances_linearly_witness :
    (handleGenerate "k" ProjectMode.storyboard "" "x" false false "" none
        "Action" "Cyberpunk" "" (VideoLength.minutes 1) none "p" 0
        (.ok (some ({ title := "T",
                      scenes := some [{ id := "a" }, { id := "b" }, { id := "c" }] }
          : MovieScriptData)))
        (fun i => if i = 1 then .error "boom" else .ok "u") {}).progressTrace =
      [2, 20, 46, 73, 100] ∧
    (handleGenerate "k" ProjectMode.storyboard "" "x" false false "" none
        "Action" "Cyberpunk" "" (VideoLength.minutes 1) none "p" 0
        (.ok (some ({ title := "T",
                      scenes := some [{ id := "a" }, { id := "b" }, { id := "c" }] }
          : MovieScriptData)))
        (fun i => if i = 1 then .error "boom" else .ok "u") {}).progress = 100 := by
  have h := C8_progress_advances_linearly "k" ProjectMode.storyboard "" "x" false false
    "" none "Action" "Cyberpunk" "" (VideoLength.minutes 1) none "p" 0
    { title := "T", scenes := some [{ id := "a" }, { id := "b" }, { id := "c" }] }
    [{ id := "a" }, { id := "b" }, { id := "c" }]
    (fun i => if i = 1 then .error "boom" else .ok "u") {}
    (by decide) (by decide) rfl
  refine ⟨?_, h.2.2 (by decide)⟩
  · rw [h.1]
    rfl

/-- C6: when the script request of a validated `handleGenerate` run throws
(any failure message — missing credential, network/HTTP error, parse
error), the run lands in the error state (`Error Occurred`), its log is the
pre-script log plus the one failure entry, no image request is ever issued,
and nothing is handed to `onProjectCreated`. -/
theorem C6_script_failure_aborts_run (apiKey : String) (mode : ProjectMode)
    (titleInput content : String) (selectedFile isProcessingVideo : Bool)
    (objectUrl : String) (lastFrameUrl : Option String)
    (type style customStyle : String) (length : VideoLength)
    (customLength : Option Nat) (projectId : String) (now : Nat) (e : String)
    (imageResult : Nat → Except String String) (st0 : RunState)
    (hkey : ¬ apiKey = "")
    (hval : validationOk mode titleInput content selectedFile isProcessingVideo = true) :
    (handleGenerate apiKey mode titleInput content selectedFile isProcessingVideo
        objectUrl lastFrameUrl type style customStyle length customLength
        projectId now (.error e) imageResult st0).processingStatus =
      "Error Occurred" ∧
    (handleGenerate apiKey mode titleInput content selectedFile isProcessingVideo
        objectUrl lastFrameUrl type style customStyle length customLength
        projectId now (.error e) imageResult st0).logs =
      st0.logs ++ preLogs mode ++ ["CRITICAL ERROR: " ++ e] ∧
    (handleGenerate apiKey mode titleInput content selectedFile isProcessingVideo
        objectUrl lastFrameUrl type style customStyle length customLength
        projectId now (.error e) imageResult st0).imageCalls = st0.imageCalls ∧
    (handleGenerate apiKey mode titleInput content selectedFile isProcessingVideo
        objectUrl lastFrameUrl type style customStyle length customLength
        projectId now (.error e) imageResult st0).saved = st0.saved := by
  rw [handleGenerate_pass _ _ _ _ _ _ _ _ _ _ _ _ _ _ _ _ _ _ hkey hval,
    handleGenerateBody_error]
  refine ⟨rfl, ?_, rfl, rfl⟩
  simp [catchBlock, preState, addLog, setProcessingStatus]

/-- Witness for C6: a failed script request on a fresh state leaves the
error status, the single failure log entry after the three setup entries,
zero image calls and nothing persisted. -/
theorem C6_script_failure_aborts_run_witness :
    (handleGenerate "k" ProjectMode.storyboard "" "x" false false "" none
        "Action" "Cyberpunk" "" (VideoLength.minutes 1) none "p" 0
        (.error "OpenRouter API Error: 500 - down") (fun _ => .ok "u") {}).logs =
      ["System initialized.", "Drafting project in storyboard mode...",
       "Contacting Screenwriter Agent (OpenRouter / GPT-5)...",
       "CRITICAL ERROR: OpenRouter API Error: 500 - down"] ∧
    (handleGenerate "k" ProjectMode.storyboard "" "x" false false "" none
        "Action" "Cyberpunk" "" (VideoLength.minutes 1) none "p" 0
        (.error "OpenRouter API Error: 500 - down") (fun _ => .ok "u") {}).imageCalls
      = 0 ∧
    (handleGenerate "k" ProjectMode.storyboard "" "x" false false "" none
        "Action" "Cyberpunk" "" (VideoLength.minutes 1) none "p" 0
        (.error "OpenRouter API Error: 500 - down") (fun _ => .ok "u") {}).saved
      = [] := by
  have h := C6_script_failure_aborts_run "k" ProjectMode.storyboard "" "x" false false
    "" none "Action" "Cyberpunk" "" (VideoLength.minutes 1) none "p" 0
    "OpenRouter API Error: 500 - down" (fun _ => .ok "u") {} (by decide) (by decide)
  refine ⟨?_, h.2.2.1, h.2.2.2⟩
  rw [h.2.1]
  rfl

/-- C7 counterexample: with an empty credential, `handleGenerate` merely
alerts and returns — the log stays empty (so it does not contain exactly
one missing-credential entry), the status text is untouched (nothing is
set to an error state), progress keeps its pre-run value, and no project
exists or is persisted. -/
theorem C7_empty_credential_counterexample :
    (handleGenerate "" ProjectMode.storyboard "" "A detective story" false false ""
        none "Action" "Cyberpunk" "" (VideoLength.minutes 1) none "p" 0
        (.error "unused") (fun _ => .error "unused") {}).logs = [] ∧
    ¬ ((handleGenerate "" ProjectMode.storyboard "" "A detective story" false false ""
        none "Action" "Cyberpunk" "" (VideoLength.minutes 1) none "p" 0
        (.error "unused") (fun _ => .error "unused") {}).logs.length = 1) ∧
    (handleGenerate "" ProjectMode.storyboard "" "A detective story" false false ""
        none "Action" "Cyberpunk" "" (VideoLength.minutes 1) none "p" 0
        (.error "unused") (fun _ => .error "unused") {}).processingStatus =
      "Initializing..." ∧
    (handleGenerate "" ProjectMode.storyboard "" "A detective story" false false ""
        none "Action" "Cyberpunk" "" (VideoLength.minutes 1) none "p" 0
        (.error "unused") (fun _ => .error "unused") {}).progress = 0 ∧
    (handleGenerate "" ProjectMode.storyboard "" "A detective story" false false ""
        none "Action" "Cyberpunk" "" (VideoLength.minutes 1) none "p" 0
        (.error "unused") (fun _ => .error "unused") {}).saved = [] ∧
    (handleGenerate "" ProjectMode.storyboard "" "A detective story" false false ""
        none "Action" "Cyberpunk" "" (VideoLength.minutes 1) none "p" 0
        (.error "unused") (fun _ => .error "unused") {}).alerts =
      ["Please configure your API Key in Settings first."] :=
  ⟨rfl, by decide, rfl, rfl, rfl, rfl⟩

/-- C7 as amended: an empty credential makes `handleGenerate` show an alert
and return immediately — no network call is attempted (script and image
call counts unchanged), progress, status text, log and persisted projects
all keep their pre-run values, and no project record is ever created, so no
status transitions to `error` and no log entry is appended; the
missing-credential condition is reported via the alert alone. -/
theorem C7_empty_credential_alerts_and_returns (mode : ProjectMode)
    (titleInput content : String) (selectedFile isProcessingVideo : Bool)
    (objectUrl : String) (lastFrameUrl : Option String)
    (type style customStyle : String) (length : VideoLength)
    (customLength : Option Nat) (projectId : String) (now : Nat)
    (scriptResult : Except String (Option MovieScriptData))
    (imageResult : Nat → Except String String) (st0 : RunState) :
    handleGenerate "" mode titleInput content selectedFile isProcessingVideo
        objectUrl lastFrameUrl type style customStyle length customLength
        projectId now scriptResult imageResult st0 =
      jsAlert st0 "Please configure your API Key in Settings first." ∧
    (handleGenerate "" mode titleInput content selectedFile isProcessingVideo
        objectUrl lastFrameUrl type style customStyle length customLength
        projectId now scriptResult imageResult st0).logs = st0.logs ∧
    (handleGenerate "" mode titleInput content selectedFile isProcessingVideo
        objectUrl lastFrameUrl type style customStyle length customLength
        projectId now scriptResult imageResult st0).progress = st0.progress ∧
    (handleGenerate "" mode titleInput content selectedFile isProcessingVideo
        objectUrl lastFrameUrl type style customStyle length customLength
        projectId now scriptResult imageResult st0).processingStatus =
      st0.processingStatus ∧
    (handleGenerate "" mode titleInput content selectedFile isProcessingVideo
        objectUrl lastFrameUrl type style customStyle length customLength
        projectId now scriptResult imageResult st0).scriptCalls = st0.scriptCalls ∧
    (handleGenerate "" mode titleInput content selectedFile isProcessingVideo
        objectUrl lastFrameUrl type style customStyle length customLength
        projectId now scriptResult imageResult st0).imageCalls = st0.imageCalls ∧
    (handleGenerate "" mode titleInput content selectedFile isProcessingVideo
        objectUrl lastFrameUrl type style customStyle length customLength
        projectId now scriptResult imageResult st0).saved = st0.saved := by
  refine ⟨by simp [handleGenerate], rfl, rfl, rfl, rfl, rfl, rfl⟩

/-- C5 counterexample: on a response that parses as JSON but lacks the
`scenes` field, `generateMovieScript` (src/unnamed/part_000) does not fail
— it returns the partial script object to its caller unchanged. -/
theorem C5_requestor_returns_partial_counterexample :
    generateMovieScriptResult "key" true 200 ""
        (some "partial json") (.ok (some { title := "T", logline := "L" })) =
      .ok (some { title := "T", logline := "L" }) ∧
    ({ title := "T", logline := "L" } : MovieScriptData).scenes = none :=
  ⟨rfl, rfl⟩

/-- C5 as amended: the missing-`scenes` check lives in the caller — when
the script oracle returns a parsed object without `scenes`, `handleGenerate`
throws `Received invalid script data from AI.`, the run ends in the error
state with that single failure entry appended, no image request is issued
and nothing is persisted, so no partial Script survives the run. -/
theorem C5_missing_scenes_fails_in_orchestrator (apiKey : String)
    (mode : ProjectMode) (titleInput content : String)
    (selectedFile isProcessingVideo : Bool) (objectUrl : String)
    (lastFrameUrl : Option String) (type style customStyle : String)
    (length : VideoLength) (customLength : Option Nat) (projectId : String)
    (now : Nat) (script : MovieScriptData)
    (imageResult : Nat → Except String String) (st0 : RunState)
    (hkey : ¬ apiKey = "")
    (hval : validationOk mode titleInput content selectedFile isProcessingVideo = true)
    (hsc : script.scenes = none) :
    (handleGenerate apiKey mode titleInput content selectedFile isProcessingVideo
        objectUrl lastFrameUrl type style customStyle length customLength
        projectId now (.ok (some script)) imageResult st0).processingStatus =
      "Error Occurred" ∧
    (handleGenerate apiKey mode titleInput content selectedFile isProcessingVideo
        objectUrl lastFrameUrl type style customStyle length customLength
        projectId now (.ok (some script)) imageResult st0).logs =
      st0.logs ++ preLogs mode ++ ["CRITICAL ERROR: Received invalid script data from AI."] ∧
    (handleGenerate apiKey mode titleInput content selectedFile isProcessingVideo
        objectUrl lastFrameUrl type style customStyle length customLength
        projectId now (.ok (some script)) imageResult st0).imageCalls =
      st0.imageCalls ∧
    (handleGenerate apiKey mode titleInput content selectedFile isProcessingVideo
        objectUrl lastFrameUrl type style customStyle length customLength
        projectId now (.ok (some script)) imageResult st0).saved = st0.saved := by
  rw [handleGenerate_pass _ _ _ _ _ _ _ _ _ _ _ _ _ _ _ _ _ _ hkey hval,
    handleGenerateBody_noScenes _ _ _ _ _ _ _ _ _ _ _ _ _ _ _ _ hsc]
  refine ⟨rfl, ?_, rfl, rfl⟩
  simp [catchBlock, preState, addLog, setProcessingStatus]

/-- Witness for C5 (amended): a scenes-less parsed script on a fresh state
errors the run without persisting anything. -/
theorem C5_missing_scenes_fails_in_orchestrator_witness :
    (handleGenerate "k" ProjectMode.storyboard "" "x" false false "" none
        "Action" "Cyberpunk" "" (VideoLength.minutes 1) none "p" 0
        (.ok (some { title := "T", logline := "L" })) (fun _ => .ok "u")
        {}).processingStatus = "Error Occurred" ∧
    (handleGenerate "k" ProjectMode.storyboard "" "x" false false "" none
        "Action" "Cyberpunk" "" (VideoLength.minutes 1) none "p" 0
        (.ok (some { title := "T", logline := "L" })) (fun _ => .ok "u")
        {}).saved = [] := by
  have h := C5_missing_scenes_fails_in_orchestrator "k" ProjectMode.storyboard "" "x"
    false false "" none "Action" "Cyberpunk" "" (VideoLength.minutes 1) none "p" 0
    { title := "T", logline := "L" } (fun _ => .ok "u") {} (by decide) (by decide) rfl
  exact ⟨h.1, h.2.2.2⟩

/-- C10: every project that a `handleGenerate` run appends to the persisted
list satisfies the invariant — status `completed`, progress 100, and a
non-null script whose `scenes` field is present; under every credential,
validation outcome, script result and image oracle, no project in any other
state is ever handed to `onProjectCreated`. -/
theorem C10_persisted_projects_are_completed (apiKey : String)
    (mode : ProjectMode) (titleInput content : String)
    (selectedFile isProcessingVideo : Bool) (objectUrl : String)
    (lastFrameUrl : Option String) (type style customStyle : String)
    (length : VideoLength) (customLength : Option Nat) (projectId : String)
    (now : Nat) (scriptResult : Except String (Option MovieScriptData))
    (imageResult : Nat → Except String String) (st0 : RunState) :
    ∀ pr ∈ (handleGenerate apiKey mode titleInput content selectedFile
        isProcessingVideo objectUrl lastFrameUrl type style customStyle length
        customLength projectId now scriptResult imageResult st0).saved,
      pr ∈ st0.saved ∨
        (pr.status = ProjectStatus.completed ∧ pr.progress = 100 ∧
          ∃ (sc : MovieScriptData) (l : List SceneData),
            pr.script = some sc ∧ sc.scenes = some l) := by
  intro pr hpr
  by_cases hkey : apiKey = ""
  · subst hkey
    left
    simpa [handleGenerate, jsAlert] using hpr
  · cases hval : validationOk mode titleInput content selectedFile isProcessingVideo with
    | false =>
      left
      obtain ⟨msg, hmsg⟩ := handleGenerate_invalid apiKey mode titleInput content
        selectedFile isProcessingVideo objectUrl lastFrameUrl type style customStyle
        length customLength projectId now scriptResult imageResult st0 hkey hval
      rw [hmsg] at hpr
      simpa [jsAlert] using hpr
    | true =>
      rw [handleGenerate_pass _ _ _ _ _ _ _ _ _ _ _ _ _ _ _ _ _ _ hkey hval] at hpr
      cases scriptResult with
      | error e =>
        rw [handleGenerateBody_error] at hpr
        left
        simpa [catchBlock, preState, addLog, setProcessingStatus] using hpr
      | ok sopt =>
        cases sopt with
        | none =>
          rw [handleGenerateBody_nullScript] at hpr
          left
          simpa [catchBlock, preState, addLog, setProcessingStatus] using hpr
        | some script =>
          cases hsc : script.scenes with
          | none =>
            rw [handleGenerateBody_noScenes _ _ _ _ _ _ _ _ _ _ _ _ _ _ _ _ hsc] at hpr
            left
            simpa [catchBlock, preState, addLog, setProcessingStatus] using hpr
          | some scenes =>
            rw [handleGenerateBody_success _ _ _ _ _ _ _ _ _ _ _ _ _ _ _ _ _ hsc,
              scriptSuccess_saved] at hpr
            simp only [preState] at hpr
            rcases List.mem_append.mp hpr with h | h
            · exact Or.inl h
            · right
              have hpc := List.mem_singleton.mp h
              subst hpc
              exact ⟨rfl, rfl, ⟨_, _, rfl, rfl⟩⟩

/-- Witness for C10: in a concrete successful run every persisted project
is completed at progress 100. -/
theorem C10_persisted_projects_are_completed_witness :
    ((handleGenerate "k" ProjectMode.storyboard "" "x" false false "" none
        "Action" "Cyberpunk" "" (VideoLength.minutes 1) none "p" 0
        (.ok (some { title := "T", scenes := some [{ id := "a" }] }))
        (fun _ => .ok "u") {}).saved.all
      (fun pr => pr.status == ProjectStatus.completed && pr.progress == 100)) = true := by
  rw [List.all_eq_true]
  intro pr hpr
  have h := C10_persisted_projects_are_completed "k" ProjectMode.storyboard "" "x"
    false false "" none "Action" "Cyberpunk" "" (VideoLength.minutes 1) none "p" 0
    (.ok (some { title := "T", scenes := some [{ id := "a" }] }))
    (fun _ => .ok "u") {} pr hpr
  rcases h with h | h
  · exact absurd h (List.not_mem_nil pr)
  · obtain ⟨h1, h2, -⟩ := h
    simp [h1, h2]

/-- Replacing the keyed record leaves exactly one record under the key. -/
theorem filter_replace (store : List Project) (p : Project)
    (h : (store.map Project.id).Nodup)
    (hany : store.any (fun q => q.id == p.id) = true) :
    (store.map (fun q => if q.id == p.id then p else q)).filter
        (fun q => q.id == p.id) = [p] := by
  induction store with
  | nil => simp at hany
  | cons a rest ih =>
    simp only [List.map_cons, List.nodup_cons] at h
    obtain ⟨hnotin, hrest⟩ := h
    simp only [List.any_cons, Bool.or_eq_true] at hany
    by_cases ha : (a.id == p.id) = true
    · have haid : a.id = p.id := beq_iff_eq.mp ha
      rw [List.map_cons, if_pos ha, List.filter_cons_of_pos (by simp)]
      have hnil : (rest.map (fun q => if q.id == p.id then p else q)).filter
          (fun q => q.id == p.id) = [] := by
        rw [List.filter_eq_nil_iff]
        intro b hb
        obtain ⟨q, hq, rfl⟩ := List.mem_map.mp hb
        by_cases hq2 : (q.id == p.id) = true
        · exfalso
          apply hnotin
          have : q.id = a.id := (beq_iff_eq.mp hq2).trans haid.symm
          exact this ▸ List.mem_map_of_mem Project.id hq
        · simp only [if_neg hq2]
          simp only [hq2]
          exact Bool.false_ne_true
      rw [hnil]
    · have hany2 : rest.any (fun q => q.id == p.id) = true := by
        rcases hany with h1 | h1
        · exact absurd h1 ha
        · exact h1
      rw [List.map_cons, if_neg ha, List.filter_cons_of_neg (by simpa using ha)]
      exact ih hrest hany2

/-- After `saveProject`, the key `p.id` maps to exactly the saved record. -/
theorem saveProject_filter (store : List Project) (p : Project)
    (h : (store.map Project.id).Nodup) :
    (saveProject store p).filter (fun q => q.id == p.id) = [p] := by
  unfold saveProject
  by_cases hany : store.any (fun q => q.id == p.id) = true
  · rw [if_pos hany]
    exact filter_replace store p h hany
  · rw [if_neg hany, List.filter_append]
    have h1 : store.filter (fun q => q.id == p.id) = [] := by
      rw [List.filter_eq_nil_iff]
      intro q hq
      have := List.any_eq_false.mp (Bool.eq_false_iff.mpr hany) q hq
      simpa using this
    rw [h1]
    simp

/-- Lemma: `saveProject` preserves key uniqueness. -/
theorem saveProject_nodup (store : List Project) (p : Project)
    (h : (store.map Project.id).Nodup) :
    ((saveProject store p).map Project.id).Nodup := by
  unfold saveProject
  by_cases hany : store.any (fun q => q.id == p.id) = true
  · rw [if_pos hany]
    have hsame : (store.map (fun q => if q.id == p.id then p else q)).map Project.id
        = store.map Project.id := by
      rw [List.map_map]
      apply List.map_congr_left
      intro q hq
      by_cases hq2 : (q.id == p.id) = true
      · simp only [Function.comp_apply, if_pos hq2]
        exact (beq_iff_eq.mp hq2).symm
      · have hq3 : ¬ q.id = p.id := by simpa using hq2
        simp [Function.comp_apply, hq3]
    rw [hsame]
    exact h
  · rw [if_neg hany, List.map_append]
    refine List.Nodup.append h (List.nodup_singleton _) ?_
    intro x hx1 hx2
    simp only [List.map_cons, List.map_nil, List.mem_singleton] at hx2
    subst hx2
    obtain ⟨q, hq, hqid⟩ := List.mem_map.mp hx1
    have := List.any_eq_false.mp (Bool.eq_false_iff.mpr hany) q hq
    apply this
    simpa using hqid

/-- The key of a saved record is present afterwards. -/
theorem saveProject_id_mem (store : List Project) (p : Project) :
    p.id ∈ (saveProject store p).map Project.id := by
  unfold saveProject
  by_cases hany : store.any (fun q => q.id == p.id) = true
  · rw [if_pos hany]
    obtain ⟨a, ha, haid⟩ := List.any_eq_true.mp hany
    have hmem : p ∈ store.map (fun q => if q.id == p.id then p else q) := by
      have hm := List.mem_map_of_mem (fun q => if q.id == p.id then p else q) ha
      simpa [haid] using hm
    exact List.mem_map_of_mem Project.id hmem
  · rw [if_neg hany, List.map_append]
    simp

/-- C9: in the Project Store (src/utils/db.ts), saving twice under the same
id leaves exactly one stored record for that id — the second save
overwrites in place (the store size does not grow), never duplicates, and
key uniqueness is preserved — and for every store contents, `getProjects`
returns the records sorted by `createdAt` descending. -/
theorem C9_save_overwrites_and_list_sorted (store : List Project) (p q : Project)
    (hnodup : (store.map Project.id).Nodup) (hid : p.id = q.id) :
    (saveProject (saveProject store p) q).filter (fun r => r.id == q.id) = [q] ∧
    (saveProject (saveProject store p) q).length = (saveProject store p).length ∧
    ((saveProject (saveProject store p) q).map Project.id).Nodup ∧
    ∀ s : List Project,
      (getProjects s).Pairwise (fun a b => b.createdAt ≤ a.createdAt) := by
  refine ⟨?_, ?_, ?_, ?_⟩
  · exact saveProject_filter _ q (saveProject_nodup store p hnodup)
  · have hmem : q.id ∈ (saveProject store p).map Project.id := hid ▸ saveProject_id_mem store p
    obtain ⟨r, hr, hrid⟩ := List.mem_map.mp hmem
    have hany : (saveProject store p).any (fun a => a.id == q.id) = true :=
      List.any_eq_true.mpr ⟨r, hr, by simp [hrid]⟩
    conv_lhs => rw [saveProject, if_pos hany]
    rw [List.length_map]
  · exact saveProject_nodup _ q (saveProject_nodup store p hnodup)
  · intro s
    have h := @List.sorted_mergeSort Project
      (fun a b : Project => decide (b.createdAt ≤ a.createdAt))
      (fun a b c hab hbc => by
        simp only [decide_eq_true_eq] at *
        omega)
      (fun a b => by
        simp only [Bool.or_eq_true, decide_eq_true_eq]
        omega) s
    simpa [getProjects] using h

/-- Witness for C9: saving two projects with id `"a"` into the empty store
leaves exactly the second record under that id. -/
theorem C9_save_overwrites_and_list_sorted_witness :
    ((([] : List Project).map Project.id).Nodup) ∧
    (saveProject (saveProject []
          ⟨"a", "t1", 1, ProjectMode.storyboard, {}, none, ProjectStatus.draft, 0⟩)
          ⟨"a", "t2", 2, ProjectMode.storyboard, {}, none, ProjectStatus.completed, 100⟩).filter
        (fun r => r.id == "a") =
      [⟨"a", "t2", 2, ProjectMode.storyboard, {}, none, ProjectStatus.completed, 100⟩] := by
  have h := C9_save_overwrites_and_list_sorted []
    ⟨"a", "t1", 1, ProjectMode.storyboard, {}, none, ProjectStatus.draft, 0⟩
    ⟨"a", "t2", 2, ProjectMode.storyboard, {}, none, ProjectStatus.completed, 100⟩
    (by simp) rfl
  exact ⟨by simp, h.1⟩
